import Mathlib

/-!
Verification of the Cosmic Coffee payment service
(`payment/services/payment_processor.py`, `payment/main.py`,
`services/payment/models.py`).

Times are embedded as rationals (Python floats carrying wall-clock
seconds).  Randomness is embedded by passing the drawn value as an
explicit argument: `random.random()` becomes a parameter in `[0,1)`,
and `random.uniform a b` becomes `uniform a b r` with `r` the
underlying draw, mirroring CPython's `a + (b-a)*random()`.
Python dictionaries with optional keys become structures with
`Option` fields (a missing key and a key set to `None` are both
`none`, matching `dict.get`).

Python truthiness matters: the source guards
`self._next_slowdown_time and current_time >= self._next_slowdown_time`
and `self._slowdown_active and self._slowdown_start_time` treat the
float `0.0` the same as `None`.  `timeTruthy` embeds that test.
-/

/-- Constants fixed in `PaymentProcessor.__init__`
(`payment_processor.py` lines 17, 24-27). -/
def failure_rate : ℚ := 5 / 100

def slowdown_interval : ℚ := 900

def slowdown_duration : ℚ := 300

def slowdown_min_delay : ℚ := 2

def slowdown_max_delay : ℚ := 5

/-- The mutable slowdown state of `PaymentProcessor`
(`payment_processor.py` lines 20-32): the enabled flag (read once from
the environment at construction) and the three state-tracking fields. -/
structure PaymentProcessor where
  slowdown_enabled : Bool
  slowdown_active : Bool
  slowdown_start_time : Option ℚ
  next_slowdown_time : Option ℚ
deriving DecidableEq, Repr

/-- Python truthiness of an optional float: `None` and `0.0` are falsy,
every other value is truthy. -/
def timeTruthy (o : Option ℚ) : Bool :=
  match o with
  | none => false
  | some t => t != 0

/-- `PaymentProcessor.__init__` (lines 15-32): slowdown starts
inactive, with no start time, and `next_slowdown_time` set to the
construction time `t0` (`time.time()`) when enabled, `None` otherwise. -/
def initProcessor (enabled : Bool) (t0 : ℚ) : PaymentProcessor :=
  { slowdown_enabled := enabled
    slowdown_active := false
    slowdown_start_time := none
    next_slowdown_time := if enabled then some t0 else none }

/-- Guard of the first branch of `_check_and_update_slowdown`
(line 45): `not self._slowdown_active and self._next_slowdown_time and
current_time >= self._next_slowdown_time`. -/
def startCond (s : PaymentProcessor) (now : ℚ) : Bool :=
  !s.slowdown_active &&
    (match s.next_slowdown_time with
     | none => false
     | some t => t != 0 && decide (now ≥ t))

/-- Guard under which the `elif` branch of `_check_and_update_slowdown`
mutates state (lines 54-56): `self._slowdown_active and
self._slowdown_start_time` and then `elapsed >= self._slowdown_duration`. -/
def endCond (s : PaymentProcessor) (now : ℚ) : Bool :=
  s.slowdown_active &&
    (match s.slowdown_start_time with
     | none => false
     | some st => st != 0 && decide (now - st ≥ slowdown_duration))

/-- `PaymentProcessor._check_and_update_slowdown` (lines 37-63) as a
function of the state and the current time `time.time()`. -/
def check_and_update_slowdown (s : PaymentProcessor) (now : ℚ) :
    PaymentProcessor :=
  if !s.slowdown_enabled then s
  else if startCond s now then
    { s with slowdown_active := true, slowdown_start_time := some now }
  else if endCond s now then
    { s with slowdown_active := false
             slowdown_start_time := none
             next_slowdown_time := some (now + slowdown_interval) }
  else s

/-- CPython's `random.uniform a b`: `a + (b-a)*random()` with `r` the
underlying `random()` draw. -/
def uniform (a b r : ℚ) : ℚ := a + (b - a) * r

/-- `PaymentProcessor._get_slowdown_delay` (lines 65-69): zero unless
enabled and active, otherwise `random.uniform(min_delay, max_delay)`
with underlying draw `r`. -/
def get_slowdown_delay (s : PaymentProcessor) (r : ℚ) : ℚ :=
  if !s.slowdown_enabled || !s.slowdown_active then 0
  else uniform slowdown_min_delay slowdown_max_delay r

/-- The dictionary returned by `PaymentProcessor.process_payment`
(lines 106-123); each `Option` field is `none` when the key is missing
or set to `None`. -/
structure PaymentResult where
  success : Bool
  transaction_id : Option String
  reason : Option String
  amount : Option ℚ
deriving DecidableEq, Repr

/-- Lines 101-123 of `process_payment`: the failure draw
`random.random()` (passed as `r_fail`) against `failure_rate` decides
decline versus success; `txid` is the fresh `str(uuid.uuid4())`. -/
def process_payment_result (r_fail : ℚ) (txid : String) (amount : ℚ) :
    PaymentResult :=
  if r_fail < failure_rate then
    { success := false, transaction_id := none
      reason := some "Insufficient funds", amount := none }
  else
    { success := true, transaction_id := some txid
      reason := none, amount := some amount }

/-- `PaymentProcessor.process_payment` (lines 71-123) as a function of
the pre-state, the call time, the two random draws and the fresh uuid:
first the state check and the delay read (the critical section,
lines 84-86), then the result (the sleeps only suspend the caller).
Returns the post-state, the slowdown delay slept, and the result.
`name` and `email` only feed logging in the source. -/
def process_payment (s : PaymentProcessor) (now : ℚ)
    (r_delay r_fail : ℚ) (txid name email : String) (amount : ℚ) :
    PaymentProcessor × ℚ × PaymentResult :=
  let s2 := check_and_update_slowdown s now
  let d := get_slowdown_delay s2 r_delay
  (s2, d, process_payment_result r_fail txid amount)

/-- Folding `check_and_update_slowdown` over a sequence of check
times: the per-request checks and the 30-second background task both
run this same step. -/
def runChecks (s : PaymentProcessor) (ts : List ℚ) : PaymentProcessor :=
  ts.foldl check_and_update_slowdown s

/-- `PaymentResponse` from `models.py` lines 11-15. -/
structure PaymentResponse where
  success : Bool
  transaction_id : Option String
  reason : Option String
  amount : Option ℚ
deriving DecidableEq, Repr

/-- Outcome at the HTTP boundary: a 200 with a response body, or an
`HTTPException` with a status code and a detail string. -/
inductive HttpOutcome where
  | ok (body : PaymentResponse)
  | httpError (status : Nat) (detail : String)
deriving DecidableEq, Repr

/-- Status code of an outcome (`ok` is HTTP 200). -/
def statusCode : HttpOutcome → Nat
  | .ok _ => 200
  | .httpError s _ => s

/-- The `POST /api/payment` handler body (`main.py` lines 102-137) as
a function of what `payment_processor.process_payment` did: either it
returned a result (`Except.ok`) or raised an unexpected exception with
message `e` (`Except.error`).  A non-success result raises
`HTTPException(402, "Payment failed: <reason>")`, re-raised unchanged
by the `except HTTPException` arm; a success result is returned as a
`PaymentResponse`; any other exception becomes
`HTTPException(500, "Internal server error: <e>")`. -/
def handle_payment (outcome : Except String PaymentResult) : HttpOutcome :=
  match outcome with
  | .error e => .httpError 500 ("Internal server error: " ++ e)
  | .ok result =>
    if !result.success then
      .httpError 402 ("Payment failed: " ++ result.reason.getD "Unknown error")
    else
      .ok { success := true
            transaction_id := result.transaction_id
            reason := none
            amount := result.amount }

/-! ## Helper lemmas -/

/-- The state check is the identity when the feature is disabled
(lines 39-40). -/
theorem check_disabled {s : PaymentProcessor}
    (h : s.slowdown_enabled = false) (now : ℚ) :
    check_and_update_slowdown s now = s := by
  simp [check_and_update_slowdown, h]

/-- Folding the state check over any sequence of times is the identity
on a disabled state. -/
theorem runChecks_disabled (ts : List ℚ) :
    ∀ (s : PaymentProcessor), s.slowdown_enabled = false →
      runChecks s ts = s := by
  induction ts with
  | nil => intro s _; rfl
  | cons t ts ih =>
    intro s h
    have : runChecks s (t :: ts) = runChecks (check_and_update_slowdown s t) ts := rfl
    rw [this, check_disabled h, ih s h]

/-- The invariant of claim C5: the active flag is set exactly when a
start timestamp is recorded. -/
def activeInv (s : PaymentProcessor) : Prop :=
  s.slowdown_active = true ↔ s.slowdown_start_time ≠ none

/-! ## Claims -/

/-- C4: with the slowdown feature disabled, every sequence of state
checks at arbitrary times leaves the freshly constructed state
unchanged, the active flag stays false, and the slowdown delay of
every call is 0 (`payment_processor.py` lines 39-40, 67-68). -/
theorem disabled_never_delays (t0 r : ℚ) (ts : List ℚ) :
    runChecks (initProcessor false t0) ts = initProcessor false t0 ∧
    (runChecks (initProcessor false t0) ts).slowdown_active = false ∧
    get_slowdown_delay (runChecks (initProcessor false t0) ts) r = 0 := by
  have h : runChecks (initProcessor false t0) ts = initProcessor false t0 :=
    runChecks_disabled ts _ rfl
  refine ⟨h, ?_, ?_⟩ <;> rw [h] <;> rfl

/-- C5: `slowdown_active = true` iff `slowdown_start_time` is set
holds in every initial state and is preserved by the state check at
every time (`payment_processor.py` lines 29-32, 45-58). -/
theorem active_iff_start_time_set :
    (∀ (e : Bool) (t0 : ℚ), activeInv (initProcessor e t0)) ∧
    (∀ (s : PaymentProcessor) (now : ℚ),
       activeInv s → activeInv (check_and_update_slowdown s now)) := by
  constructor
  · intro e t0
    simp [activeInv, initProcessor]
  · intro s now h
    unfold check_and_update_slowdown
    split_ifs with h1 h2 h3 <;> simp_all [activeInv]

/-- Witness for C5: the invariant holds initially and after a concrete
check. -/
theorem active_iff_start_time_set_witness :
    activeInv (initProcessor true 100) ∧
    activeInv (check_and_update_slowdown (initProcessor true 100) 50) :=
  ⟨by simp [activeInv, initProcessor],
   active_iff_start_time_set.2 (initProcessor true 100) 50
     (by simp [activeInv, initProcessor])⟩

/-- C9: with the feature enabled, `next_slowdown_time` right after
construction is the construction time `t0` itself (a positive
wall-clock `time.time()` value), so the very first state check at any
`now ≥ t0` performs the Normal-to-Slow transition
(`payment_processor.py` lines 30-32, 45-47). -/
theorem first_check_starts_slowdown (t0 now : ℚ)
    (hpos : 0 < t0) (hge : t0 ≤ now) :
    (initProcessor true t0).next_slowdown_time = some t0 ∧
    (check_and_update_slowdown (initProcessor true t0) now).slowdown_active = true ∧
    (check_and_update_slowdown (initProcessor true t0) now).slowdown_start_time
      = some now := by
  refine ⟨rfl, ?_, ?_⟩ <;>
    simp [check_and_update_slowdown, initProcessor, startCond, hge, hpos.ne']

/-- Witness for C9: construction at time 100, first check at time 100. -/
theorem first_check_starts_slowdown_witness :
    (0:ℚ) < 100 ∧ (100:ℚ) ≤ 100 ∧
    (check_and_update_slowdown (initProcessor true 100) 100).slowdown_active
      = true :=
  ⟨by norm_num, le_refl _,
   (first_check_starts_slowdown 100 100 (by norm_num) (le_refl _)).2.1⟩

/-- C10: only the Slow-to-Normal transition reassigns
`next_slowdown_time`: the Normal-to-Slow transition (and every
non-transition) leaves it unchanged, and while active the
Normal-to-Slow guard can never fire, so the stale past value never
triggers a second start (`payment_processor.py` lines 45-59). -/
theorem next_slowdown_time_frame (s : PaymentProcessor) (now : ℚ) :
    (s.slowdown_active = false →
       (check_and_update_slowdown s now).next_slowdown_time
         = s.next_slowdown_time) ∧
    (s.slowdown_active = true → startCond s now = false) ∧
    ((check_and_update_slowdown s now).next_slowdown_time
        ≠ s.next_slowdown_time →
       s.slowdown_active = true ∧
       (check_and_update_slowdown s now).slowdown_active = false ∧
       (check_and_update_slowdown s now).slowdown_start_time = none ∧
       (check_and_update_slowdown s now).next_slowdown_time
         = some (now + slowdown_interval)) := by
  refine ⟨?_, ?_, ?_⟩
  · intro ha
    unfold check_and_update_slowdown
    split_ifs with h1 h2 h3 <;> simp_all [endCond]
  · intro ha
    simp [startCond, ha]
  · intro hne
    unfold check_and_update_slowdown at hne ⊢
    split_ifs at hne ⊢ with h1 h2 h3 <;> simp_all [endCond, startCond]

/-- Witness for C10: a concrete inactive state keeps its
`next_slowdown_time` across a check. -/
theorem next_slowdown_time_frame_witness :
    (initProcessor true 100).slowdown_active = false ∧
    (check_and_update_slowdown (initProcessor true 100) 150).next_slowdown_time
      = (initProcessor true 100).next_slowdown_time :=
  ⟨rfl, (next_slowdown_time_frame (initProcessor true 100) 150).1 rfl⟩

/-- A state whose Normal-to-Slow guard holds as the spec reads it
(enabled, not active, `now ≥ next_slowdown_time`) but which the code
leaves unchanged because the float `0.0` is falsy in Python. -/
def zeroNextState : PaymentProcessor :=
  { slowdown_enabled := true
    slowdown_active := false
    slowdown_start_time := none
    next_slowdown_time := some 0 }

/-- A state whose Slow-to-Normal guard holds as the spec reads it
(active, `now - slowdown_start_time ≥ duration`) but which the code
leaves unchanged because the start timestamp `0.0` is falsy. -/
def zeroStartState : PaymentProcessor :=
  { slowdown_enabled := true
    slowdown_active := true
    slowdown_start_time := some 0
    next_slowdown_time := none }

/-- Counterexample to C2 as stated: at `next_slowdown_time = 0.0`,
`now = 1` the Normal-to-Slow guard of the claim holds yet the code
does not transition, and at `slowdown_start_time = 0.0`, `now = 400`
the Slow-to-Normal guard of the claim holds yet the code does not
transition: Python treats the float `0.0` as falsy in both `and`
chains (`payment_processor.py` lines 45 and 54). -/
theorem slowdown_check_zero_timestamp_cex :
    (zeroNextState.slowdown_enabled = true ∧
     zeroNextState.slowdown_active = false ∧
     zeroNextState.next_slowdown_time = some 0 ∧ (1:ℚ) ≥ 0 ∧
     check_and_update_slowdown zeroNextState 1 = zeroNextState) ∧
    (zeroStartState.slowdown_active = true ∧
     zeroStartState.slowdown_start_time = some 0 ∧
     (400:ℚ) - 0 ≥ slowdown_duration ∧
     check_and_update_slowdown zeroStartState 400 = zeroStartState) := by
  refine ⟨⟨rfl, rfl, rfl, by norm_num, ?_⟩, ⟨rfl, rfl, ?_, ?_⟩⟩
  · decide
  · norm_num [slowdown_duration]
  · decide

/-- The transition function of the amended claim C2, written from its
words: when enabled, not active, and `next_slowdown_time` is a set,
nonzero timestamp `t` with `now ≥ t`, become active and record
`slowdown_start_time = now`; when enabled, active, and
`slowdown_start_time` is a set, nonzero timestamp `st` with
`now - st ≥ duration`, become inactive, clear the start time and set
`next_slowdown_time = now + interval`; in every other case (including
enabled = false and a `0.0` timestamp, which the code treats like an
unset one) the state is unchanged. -/
def specSlowdownStep (s : PaymentProcessor) (now : ℚ) : PaymentProcessor :=
  if s.slowdown_enabled && !s.slowdown_active &&
      timeTruthy s.next_slowdown_time &&
      decide (now ≥ s.next_slowdown_time.getD 0) then
    { s with slowdown_active := true, slowdown_start_time := some now }
  else if s.slowdown_enabled && s.slowdown_active &&
      timeTruthy s.slowdown_start_time &&
      decide (now - s.slowdown_start_time.getD 0 ≥ slowdown_duration) then
    { s with slowdown_active := false
             slowdown_start_time := none
             next_slowdown_time := some (now + slowdown_interval) }
  else s

/-- C2 (amended): the state check performs exactly the amended claim's
transitions — the spec's transitions with the additional
Python-truthiness requirement that the timestamp consulted by a guard
is set and nonzero (`payment_processor.py` lines 37-63). -/
theorem slowdown_check_matches_spec_transitions
    (s : PaymentProcessor) (now : ℚ) :
    check_and_update_slowdown s now = specSlowdownStep s now := by
  rcases s with ⟨e, a, st, nt⟩
  cases e <;> cases a <;> cases st <;> cases nt <;>
    simp [check_and_update_slowdown, specSlowdownStep, startCond, endCond,
          timeTruthy] <;>
    split_ifs <;> simp_all

/-- C1: every call's result is either the decline dictionary (when the
failure draw is below `failure_rate`: success false, reason
"Insufficient funds", no transaction id) or the success dictionary
(success true, the freshly generated id, the original amount) — never
carrying both an id and a reason (`payment_processor.py`
lines 101-123). -/
theorem process_payment_decline_or_success
    (s : PaymentProcessor) (now r_delay r_fail : ℚ)
    (txid name email : String) (amount : ℚ)
    (h0 : 0 ≤ r_fail) (h1 : r_fail < 1) :
    (process_payment s now r_delay r_fail txid name email amount).2.2
      = process_payment_result r_fail txid amount ∧
    (r_fail < failure_rate →
       process_payment_result r_fail txid amount
         = { success := false, transaction_id := none
             reason := some "Insufficient funds", amount := none }) ∧
    (failure_rate ≤ r_fail →
       process_payment_result r_fail txid amount
         = { success := true, transaction_id := some txid
             reason := none, amount := some amount }) ∧
    ¬((process_payment_result r_fail txid amount).transaction_id ≠ none ∧
      (process_payment_result r_fail txid amount).reason ≠ none) := by
  refine ⟨rfl, ?_, ?_, ?_⟩
  · intro h; simp [process_payment_result, h]
  · intro h; simp [process_payment_result, not_lt.mpr h]
  · unfold process_payment_result
    split_ifs <;> simp

/-- Witness for C1: a draw of 1/2 on a 4.50 payment succeeds with the
fresh id and the echoed amount. -/
theorem process_payment_decline_or_success_witness :
    (0:ℚ) ≤ 1/2 ∧ (1:ℚ)/2 < 1 ∧ failure_rate ≤ 1/2 ∧
    process_payment_result (1/2) "tx-1" (9/2)
      = { success := true, transaction_id := some "tx-1"
          reason := none, amount := some (9/2) } :=
  ⟨by norm_num, by norm_num, by norm_num [failure_rate],
   (process_payment_decline_or_success (initProcessor false 0) 0 0 (1/2)
      "tx-1" "Ada Lovelace" "" (9/2) (by norm_num) (by norm_num)).2.2.1
     (by norm_num [failure_rate])⟩

/-- C3: for every state and underlying draw in `[0,1)`, the slowdown
delay lies in `[2,5]` seconds when enabled and active, and is exactly
0 otherwise; in the embedding `get_slowdown_delay` returns only the
delay, mirroring that the source method only reads state
(`payment_processor.py` lines 65-69). -/
theorem slowdown_delay_range (s : PaymentProcessor) (r : ℚ)
    (h0 : 0 ≤ r) (h1 : r < 1) :
    (s.slowdown_enabled = true → s.slowdown_active = true →
       2 ≤ get_slowdown_delay s r ∧ get_slowdown_delay s r ≤ 5) ∧
    (¬(s.slowdown_enabled = true ∧ s.slowdown_active = true) →
       get_slowdown_delay s r = 0) := by
  constructor
  · intro he ha
    simp only [get_slowdown_delay, he, ha, uniform,
               slowdown_min_delay, slowdown_max_delay]
    norm_num
    constructor <;> nlinarith
  · intro h
    unfold get_slowdown_delay
    cases he : s.slowdown_enabled <;> cases ha : s.slowdown_active <;>
      simp_all

/-- Witness for C3: in the active state reached by the first check,
the draw 1/2 yields a delay inside `[2,5]`. -/
theorem slowdown_delay_range_witness :
    (0:ℚ) ≤ 1/2 ∧ (1:ℚ)/2 < 1 ∧
    2 ≤ get_slowdown_delay
          (check_and_update_slowdown (initProcessor true 100) 100) (1/2) ∧
    get_slowdown_delay
          (check_and_update_slowdown (initProcessor true 100) 100) (1/2) ≤ 5 :=
  ⟨by norm_num, by norm_num,
   (slowdown_delay_range _ _ (by norm_num) (by norm_num)).1
     (by decide) (by decide)⟩

/-- C6: the `POST /api/payment` handler yields HTTP 402 with detail
`"Payment failed: <reason>"` exactly when the processor result has
`success = false`, HTTP 200 with the success body (fresh id string,
echoed amount) exactly when it has `success = true`, and HTTP 500 for
any unexpected internal error — a decline is always distinguishable
from a fault (`main.py` lines 102-137, `models.py` lines 11-15). -/
theorem payment_endpoint_status_mapping (result : PaymentResult)
    (e : String) (r_fail : ℚ) (txid : String) (amount : ℚ) :
    (statusCode (handle_payment (.ok result)) = 402 ↔
       result.success = false) ∧
    (result.success = false →
       handle_payment (.ok result)
         = .httpError 402
             ("Payment failed: " ++ result.reason.getD "Unknown error")) ∧
    (statusCode (handle_payment (.ok result)) = 200 ↔
       result.success = true) ∧
    (result.success = true →
       handle_payment (.ok result)
         = .ok { success := true, transaction_id := result.transaction_id
                 reason := none, amount := result.amount }) ∧
    handle_payment (.error e)
      = .httpError 500 ("Internal server error: " ++ e) ∧
    (r_fail < failure_rate →
       handle_payment (.ok (process_payment_result r_fail txid amount))
         = .httpError 402 "Payment failed: Insufficient funds") ∧
    (failure_rate ≤ r_fail →
       handle_payment (.ok (process_payment_result r_fail txid amount))
         = .ok { success := true, transaction_id := some txid
                 reason := none, amount := some amount }) := by
  refine ⟨?_, ?_, ?_, ?_, rfl, ?_, ?_⟩
  · cases h : result.success <;> simp [handle_payment, statusCode, h]
  · intro h; simp [handle_payment, h]
  · cases h : result.success <;> simp [handle_payment, statusCode, h]
  · intro h; simp [handle_payment, h]
  · intro h; simp [process_payment_result, h, handle_payment]
  · intro h; simp [process_payment_result, not_lt.mpr h, handle_payment]

/-- Witness for C6: a decline result maps to the 402 outcome with the
exact detail string. -/
theorem payment_endpoint_status_mapping_witness :
    handle_payment (.ok (process_payment_result (1/100) "tx" (9/2)))
      = .httpError 402 "Payment failed: Insufficient funds" :=
  (payment_endpoint_status_mapping (process_payment_result (1/100) "tx" (9/2))
      "" (1/100) "tx" (9/2)).2.2.2.2.2.1 (by norm_num [failure_rate])

/-- C7: the result of `process_payment` is identical across arbitrary
slowdown states, call times and delay draws once the failure draw and
fresh id agree — the slowdown subsystem only adds latency and never
changes the success flag, the reason, or any other result field
(`payment_processor.py` lines 84-110). -/
theorem result_independent_of_slowdown_state
    (s1 s2 : PaymentProcessor) (now1 now2 rd1 rd2 r_fail : ℚ)
    (txid name email : String) (amount : ℚ) :
    (process_payment s1 now1 rd1 r_fail txid name email amount).2.2
      = (process_payment s2 now2 rd2 r_fail txid name email amount).2.2 ∧
    ((process_payment s1 now1 rd1 r_fail txid name email amount).2.2).success
      = ((process_payment s2 now2 rd2 r_fail txid name email amount).2.2).success ∧
    ((process_payment s1 now1 rd1 r_fail txid name email amount).2.2).reason
      = ((process_payment s2 now2 rd2 r_fail txid name email amount).2.2).reason :=
  ⟨rfl, rfl, rfl⟩
